import Mathlib

/-!
Verification development for the Furiko job orchestration platform.

This file shallowly embeds the parts of the repository needed to settle the
frozen claims: the option evaluator (`pkg/core/options`), the config manager
(`pkg/runtime/configloader`), the job-queue admission reconciler for
independent jobs (`pkg/execution/controllers/jobqueuecontroller`), the
`killPod` helper of the job lifecycle controller test fixtures, and the
three-stage kill sequence of the job lifecycle reconciler.

Machine integers are modelled as `Int`/`Nat`; timestamps as `Int` Unix
seconds; Go `interface{}` values as the inductive `GoValue`; fallible Go
functions as `Except String _`.
-/

namespace Furiko

/-! ## Option evaluator: data model

Mirrors `execution.Option` and its per-type configs from
`apis/execution/v1alpha1`. Go zero values are the Lean default field values.
-/

inductive OptionType where
  | bool
  | string
  | select
  | multi
  | date
deriving DecidableEq, Repr

/-- Mirrors `execution.BoolOptionConfig`. `format` holds the raw
`BoolOptionFormat` string (one of `true_false`, `one_zero`, `yes_no`,
`custom`). -/
structure BoolOptionConfig where
  default : Bool := false
  format : String := ""
  trueVal : String := ""
  falseVal : String := ""
deriving DecidableEq, Repr

/-- Mirrors `execution.StringOptionConfig`. -/
structure StringOptionConfig where
  default : String := ""
  trimSpaces : Bool := false
deriving DecidableEq, Repr

/-- Mirrors `execution.SelectOptionConfig`. -/
structure SelectOptionConfig where
  default : String := ""
  values : List String := []
  allowCustom : Bool := false
deriving DecidableEq, Repr

/-- Mirrors `execution.MultiOptionConfig`. The Go zero value of `Delimiter`
is the empty string, so the delimiter defaults to `""`. -/
structure MultiOptionConfig where
  default : List String := []
  values : List String := []
  allowCustom : Bool := false
  delimiter : String := ""
deriving DecidableEq, Repr

/-- Mirrors `execution.DateOptionConfig`. `format` is a human-format
pattern such as `D MMM YYYY`. -/
structure DateOptionConfig where
  format : String := ""
deriving DecidableEq, Repr

/-- Mirrors `execution.Option`: one declarative parameter of a JobConfig.
Exactly one of the per-type configs is expected to be set, matching
`optType`; the others being pointers, absence is `none`. -/
structure JobOption where
  optType : OptionType
  name : String := ""
  required : Bool := false
  bool : Option BoolOptionConfig := none
  string : Option StringOptionConfig := none
  select : Option SelectOptionConfig := none
  multi : Option MultiOptionConfig := none
  date : Option DateOptionConfig := none
deriving DecidableEq, Repr

/-- Mirrors `execution.OptionSpec`: the ordered list of Options of a
JobConfig. A nil Go slice is modelled as `[]`. -/
structure OptionSpec where
  options : List JobOption := []
deriving DecidableEq, Repr

/-- An element of a Go `[]interface{}` as seen by the multi-option
evaluator: either a string or some non-string value (whose precise contents
the evaluator rejects without inspecting further). -/
inductive GoElem where
  | str (s : String)
  | nonStr
deriving DecidableEq, Repr

/-- A Go `interface{}` option value as exercised by the evaluator: nil,
bool, string, `[]string`, `[]interface{}` (where `anyList none` models a
nil slice), or a number. Time-typed values (used only by Date options with
non-nil input, which no claim touches) are not modelled. -/
inductive GoValue where
  | null
  | bool (b : Bool)
  | str (s : String)
  | strList (xs : List String)
  | anyList (xs : Option (List GoElem))
  | int (n : Int)
deriving DecidableEq, Repr

/-! ## Option evaluator: validation -/

def isNameChar (c : Char) : Bool :=
  c.isAlpha || c.isDigit || c == '_' || c == '.' || c == '-'

/-- Option names must be non-empty and match `[A-Za-z0-9_.-]+`. -/
def isValidName (s : String) : Bool :=
  (s != "") && s.toList.all isNameChar

def boolFormats : List String := ["true_false", "one_zero", "yes_no", "custom"]

/-- Modelled from the spec: `ValidateJobOption` of `pkg/core/options` is not
under `src/` (only its tests are). Per spec section 4.1 and the expectations
of `TestValidateJobOption`: the name must be valid; the config matching the
option's type must be well-formed (Bool and Select and Multi require their
config to be present, String and Date tolerate an absent config); configs of
other types must be absent; a Bool cannot be Required; Bool formats are
restricted; Select/Multi `Values` must be non-empty with non-empty entries
and any default must be drawn from `Values`. Errors are modelled as a list
of messages. -/
def validateJobOption (opt : JobOption) : List String :=
  (if isValidName opt.name then [] else ["invalid option name"]) ++
  (match opt.optType with
   | .bool =>
     (if opt.string.isSome || opt.select.isSome || opt.multi.isSome ||
         opt.date.isSome then ["unexpected config for bool option"] else []) ++
     (match opt.bool with
      | none => ["missing bool config"]
      | some cfg =>
        if boolFormats.contains cfg.format then [] else ["invalid bool format"]) ++
     (if opt.required then ["bool option cannot be required"] else [])
   | .string =>
     (if opt.bool.isSome || opt.select.isSome || opt.multi.isSome ||
         opt.date.isSome then ["unexpected config for string option"] else [])
   | .select =>
     (if opt.bool.isSome || opt.string.isSome || opt.multi.isSome ||
         opt.date.isSome then ["unexpected config for select option"] else []) ++
     (match opt.select with
      | none => ["missing select config"]
      | some cfg =>
        (if cfg.values = [] then ["select values must not be empty"] else []) ++
        (if cfg.values.all (fun v => v != "") then []
         else ["select values cannot contain the empty string"]) ++
        (if cfg.default = "" || cfg.values.contains cfg.default then []
         else ["select default must be one of the values"]))
   | .multi =>
     (if opt.bool.isSome || opt.string.isSome || opt.select.isSome ||
         opt.date.isSome then ["unexpected config for multi option"] else []) ++
     (match opt.multi with
      | none => ["missing multi config"]
      | some cfg =>
        (if cfg.values = [] then ["multi values must not be empty"] else []) ++
        (if cfg.values.all (fun v => v != "") then []
         else ["multi values cannot contain the empty string"]) ++
        (if cfg.default.all (fun v => (v != "") && cfg.values.contains v) then []
         else ["multi default values must be non-empty and drawn from values"]))
   | .date =>
     (if opt.bool.isSome || opt.string.isSome || opt.select.isSome ||
         opt.multi.isSome then ["unexpected config for date option"] else []))

/-- Walks the option list in order, validating each option and flagging any
name already seen before it. -/
def validateOptionsList : List String → List JobOption → List String
  | _, [] => []
  | seen, o :: rest =>
    validateJobOption o ++
    (if o.name ∈ seen then ["duplicate option name: " ++ o.name] else []) ++
    validateOptionsList (o.name :: seen) rest

/-- Modelled from the spec: `ValidateOptionSpec` of `pkg/core/options` is
not under `src/` (only its tests are). A nil OptionSpec is accepted; each
option is validated; option names must be unique within the spec. -/
def validateOptionSpec (spec : Option OptionSpec) : List String :=
  match spec with
  | none => []
  | some s => validateOptionsList [] s.options

/-! ## Option evaluator: evaluation -/

/-- Renders a bool per the configured `BoolOptionFormat`; an unknown format
is an error. -/
def formatBool (cfg : BoolOptionConfig) (b : Bool) : Except String String :=
  if cfg.format = "true_false" then .ok (if b then "true" else "false")
  else if cfg.format = "one_zero" then .ok (if b then "1" else "0")
  else if cfg.format = "yes_no" then .ok (if b then "yes" else "no")
  else if cfg.format = "custom" then .ok (if b then cfg.trueVal else cfg.falseVal)
  else .error "unknown bool format"

/-- Go `strings.TrimSpace`: strips leading and trailing whitespace. Written
by structural recursion over the character list so that it evaluates inside
the kernel. -/
def trimChars (cs : List Char) : List Char :=
  ((cs.dropWhile Char.isWhitespace).reverse.dropWhile Char.isWhitespace).reverse

def trimSpace (s : String) : String :=
  String.mk (trimChars s.data)

def trimIf (b : Bool) (s : String) : String :=
  if b then trimSpace s else s

/-- The effective default of a String option: the configured default,
trimmed when `TrimSpaces` is set (the spec: "If TrimSpaces, trim both raw
input and any default used"). An absent config behaves as the zero value. -/
def stringEffectiveDefault (opt : JobOption) : String :=
  let cfg := opt.string.getD {}
  trimIf cfg.trimSpaces cfg.default

/-- Whether a single value is admissible per Select semantics against the
given allowed values: non-empty, and a member of `values` unless custom
values are allowed. -/
def elemValid (values : List String) (allowCustom : Bool) (s : String) : Bool :=
  (s != "") && (values.contains s || allowCustom)

/-- Coerces a Go `[]interface{}` to `[]string`, rejecting any non-string
element. -/
def coerceElems : List GoElem → Except String (List String)
  | [] => .ok []
  | .str s :: rest => (coerceElems rest).map (fun xs => s :: xs)
  | .nonStr :: _ => .error "element is not a string"

/-- Coerces a multi-option input value to a list of strings. A nil value or
a nil slice coerces to the empty list; anything that is not a list of
strings (after element coercion) is an error. -/
def coerceMultiValue : GoValue → Except String (List String)
  | .null => .ok []
  | .strList xs => .ok xs
  | .anyList none => .ok []
  | .anyList (some es) => coerceElems es
  | _ => .error "value is not a list of strings"

/-- Modelled from the spec: evaluation of a Multi option. An empty coerced
list falls back to the configured default list (`TestEvaluateOption`,
"multi option, empty []interface{} value with a default"); an empty default
is an error when Required. A non-empty list is validated element-wise per
Select semantics and joined with the delimiter in input order. -/
def evaluateMulti (required : Bool) (cfg : MultiOptionConfig) (v : GoValue) :
    Except String String :=
  match coerceMultiValue v with
  | .error e => .error e
  | .ok xs =>
    if xs = [] then
      if cfg.default = [] then
        if required then .error "option is required" else .ok ""
      else .ok (String.intercalate cfg.delimiter cfg.default)
    else
      if xs.all (elemValid cfg.values cfg.allowCustom) then
        .ok (String.intercalate cfg.delimiter xs)
      else .error "value is not an allowed value"

/-- Modelled from the spec: `EvaluateOption` of `pkg/core/options` is not
under `src/` (only its tests are); modelled from spec section 4.1 with each
branch pinned against the expectations of `TestEvaluateOption`
(src/unnamed/part_002). In particular, a nil value on a Required Date
option is an error per the test "date option, required"
(src/unnamed/part_002:1182). Evaluation of non-nil Date values (RFC3339
parsing and human-format output) is outside every claim and is not
modelled: any non-nil Date input is folded into a single modelled error
branch. -/
def evaluateOption (v : GoValue) (opt : JobOption) : Except String String :=
  match opt.optType with
  | .bool =>
    match opt.bool with
    | none => .error "missing bool config"
    | some cfg =>
      match v with
      | .null => formatBool cfg cfg.default
      | .bool b => formatBool cfg b
      | _ => .error "value is not a bool"
  | .string =>
    let cfg := opt.string.getD {}
    match v with
    | .null =>
      let d := trimIf cfg.trimSpaces cfg.default
      if d = "" ∧ opt.required = true then .error "option is required" else .ok d
    | .str s =>
      let s' := trimIf cfg.trimSpaces s
      if s' = "" ∧ opt.required = true then .error "option is required" else .ok s'
    | _ => .error "value is not a string"
  | .select =>
    let cfg := opt.select.getD {}
    match v with
    | .null =>
      if cfg.default = "" then
        if opt.required then .error "option is required" else .ok ""
      else .ok cfg.default
    | .str s =>
      if s = "" then
        if opt.required then .error "option is required" else .ok ""
      else if cfg.values.contains s || cfg.allowCustom then .ok s
      else .error "value is not an allowed value"
    | _ => .error "value is not a string"
  | .multi => evaluateMulti opt.required (opt.multi.getD {}) v
  | .date =>
    match v with
    | .null => if opt.required then .error "option is required" else .ok ""
    | _ => .error "non-nil date values are not modelled"

/-- Modelled from the spec: `EvaluateOptionDefault` of `pkg/core/options`
is not under `src/` (only its tests are). It evaluates the option's default
value without applying the Required check, pinned against
`TestEvaluateOptionDefault`: only a Bool option with a missing config
fails; every other type yields its (possibly empty) default rendering. -/
def evaluateOptionDefault (opt : JobOption) : Except String String :=
  match opt.optType with
  | .bool =>
    match opt.bool with
    | none => .error "missing bool config"
    | some cfg => formatBool cfg cfg.default
  | .string => .ok (stringEffectiveDefault opt)
  | .select => .ok ((opt.select.getD {}).default)
  | .multi =>
    let cfg := opt.multi.getD {}
    .ok (String.intercalate cfg.delimiter cfg.default)
  | .date => .ok ""

/-- Fixture mirroring the test "string option, specify value with default,
trim spaces" (src/unnamed/part_002:662). -/
def fixtureTrimStringOpt : JobOption :=
  { optType := .string, name := "opt", required := true,
    string := some { default := "hello", trimSpaces := true } }

/-- Fixture mirroring the test "multi option, specify multiple value"
(src/unnamed/part_002:985). -/
def fixtureMultiOpt : JobOption :=
  { optType := .multi, name := "opt",
    multi := some { values := ["a", "b"], delimiter := "," } }

/-- Fixture mirroring the test "multi option, not required, with default"
(src/unnamed/part_002:1456). -/
def fixtureMultiDefaultOpt : JobOption :=
  { optType := .multi, name := "opt",
    multi := some { default := ["c", "b"], values := ["a", "b", "c"],
                    delimiter := "," } }

example : evaluateOption (.str " world ") fixtureTrimStringOpt = .ok "world" :=
  rfl

example : evaluateOption (.strList ["a", "b"]) fixtureMultiOpt = .ok "a,b" :=
  rfl

example : evaluateOptionDefault fixtureMultiDefaultOpt = .ok "c,b" := rfl

/-- Fixture mirroring the test "bool option, nil value with a default"
(src/unnamed/part_002:517). -/
def fixtureBoolOpt : JobOption :=
  { optType := .bool, name := "opt",
    bool := some { default := true, format := "true_false" } }

example : evaluateOption .null fixtureBoolOpt = .ok "true" := rfl

example : evaluateOption (.bool false)
    { fixtureBoolOpt with bool := some { default := true, format := "yes_no" } } =
    .ok "no" := rfl

example : evaluateOption (.str "true") fixtureBoolOpt =
    .error "value is not a bool" := rfl

example : evaluateOption .null
    { optType := .string, name := "opt", required := true } =
    .error "option is required" := rfl

example : evaluateOption .null
    { optType := .select, name := "opt", required := true,
      select := some { default := "b", values := ["a", "b"],
                       allowCustom := true } } = .ok "b" := rfl

example : evaluateOption .null fixtureMultiOpt = .ok "" := rfl

example : evaluateOption (.strList ["c"])
    { fixtureMultiOpt with
      multi := some { values := ["a", "b"], delimiter := ",",
                      allowCustom := true } } = .ok "c" := rfl

example : evaluateOption (.str "a") fixtureMultiOpt =
    .error "value is not a list of strings" := rfl

/-! ## Config manager (`pkg/runtime/configloader`) -/

/-- A dynamic config name such as `JobExecutionConfig`. -/
abbrev ConfigName := String

/-- A config loader publishes, per config name, either a whole payload or
nothing. The payload type is abstract; `none` models a loader that has no
(or an empty) payload for that name. -/
def ConfigLoader (payload : Type) : Type := ConfigName → Option payload

/-- Modelled from the spec: the Config Manager's `Load` of
`pkg/runtime/configloader` is not under `src/` (only its tests are). Per
spec section 4.7, loaders are consulted in registration order and each
non-empty payload replaces the whole named config published so far
(shallow override at named-config granularity). -/
def configManagerLoad {payload : Type} (loaders : List (ConfigLoader payload))
    (name : ConfigName) : Option payload :=
  loaders.foldl
    (fun acc l =>
      match l name with
      | some p => some p
      | none => acc)
    none

/-- Mirrors `configv1alpha1.CronExecutionConfig` restricted to the fields
exercised by `TestDefaultsLoader_LoaderOverride`; optional pointers model
`*int64` fields so that absence of a field in a payload is observable. -/
structure CronExecutionConfigPayload where
  maxMissedSchedules : Option Int := none
  maxDowntimeThresholdSeconds : Option Int := none
deriving DecidableEq, Repr

/-! ## Job-queue admission reconciler, independent jobs
(`pkg/execution/controllers/jobqueuecontroller`) -/

/-- The slice of a Job's state the independent-job admission reconciler
reads: the status `StartTime` and the spec `StartPolicy.StartAfter`, both
as optional Unix-second timestamps. -/
structure QueueJob where
  startTime : Option Int := none
  startAfter : Option Int := none
deriving DecidableEq, Repr

/-- A side effect of one reconcile of the job-queue admission reconciler:
either the single status update admitting the Job (recording the
`StartTime` it writes), or a delayed re-enqueue of the key. -/
inductive QueueAction where
  | updateStatus (newStartTime : Int)
  | requeueAfter (delay : Int)
deriving DecidableEq, Repr

/-- Modelled from the spec: the independent-job reconciler of
`jobqueuecontroller` is not under `src/` (only
`reconciler_independent_test.go` is). Per spec section 4.4: a Job that
already has a `StartTime` is left alone; otherwise, if
`StartAfter > now` the key is re-enqueued with delay `StartAfter - now`
and the status is left unchanged; otherwise admission issues a single
status update setting `StartTime = now` (an independent Job has no owning
JobConfig, so no concurrency policy gates it). -/
def reconcileIndependentJob (now : Int) (job : QueueJob) : List QueueAction :=
  match job.startTime with
  | some _ => []
  | none =>
    match job.startAfter with
    | some t =>
      if now < t then [.requeueAfter (t - now)]
      else [.updateStatus now]
    | none => [.updateStatus now]

/-! ## killPod (job lifecycle controller test fixtures,
`src/pkg/execution/controllers/croncontroller/controller.go:457`) -/

/-- The annotation key `podtaskexecutor.LabelKeyTaskKillTimestamp`. Its
literal value is declared outside `src/`; only its identity matters here. -/
def LabelKeyTaskKillTimestamp : String := "execution.furiko.io/task-kill-timestamp"

/-- The slice of a `corev1.Pod` read and written by `killPod`:
`ObjectMeta.Annotations`, `Spec.ActiveDeadlineSeconds`, and
`Status.StartTime` (a nullable timestamp, in Unix seconds). -/
structure PodStatusModel where
  startTime : Option Int := none
deriving DecidableEq, Repr

structure PodSpecModel where
  activeDeadlineSeconds : Option Int := none
deriving DecidableEq, Repr

structure PodModel where
  anns : List (String × String) := []
  spec : PodSpecModel := {}
  status : PodStatusModel := {}
deriving DecidableEq, Repr

/-- `meta.SetAnnotation`: sets key `k` to value `v` in the annotation map,
overwriting any existing entry. The map is modelled as an association list
with unique keys. -/
def setAnn (anns : List (String × String)) (k v : String) : List (String × String) :=
  (anns.filter (fun p => p.1 ≠ k)) ++ [(k, v)]

/-- Annotation lookup. -/
def getAnn (anns : List (String × String)) (k : String) : Option String :=
  (anns.find? (fun p => p.1 = k)).map (fun p => p.2)

/-- Embeds `killPod` from the jobcontroller test fixtures
(`controller.go:458`): annotate the pod with the kill timestamp (as a
decimal Unix-seconds string) and set
`ActiveDeadlineSeconds = ts - Status.StartTime` in whole seconds. The Go
code dereferences `Status.StartTime`, so a pod without a start time is
modelled as `none` (the Go code would panic). -/
def killPod (pod : PodModel) (ts : Int) : Option PodModel :=
  match pod.status.startTime with
  | none => none
  | some st =>
    some
      { pod with
        anns := setAnn pod.anns LabelKeyTaskKillTimestamp (toString ts)
        spec := { pod.spec with activeDeadlineSeconds := some (ts - st) } }

/-! ## Kill sequence of the job lifecycle reconciler (spec section 4.5) -/

/-- The two dynamic-config timeouts governing kill stages 2 and 3
(`deleteKillingTasksTimeoutSeconds`,
`forceDeleteKillingTasksTimeoutSeconds`). -/
structure KillConfig where
  deleteTimeout : Int := 0
  forceDeleteTimeout : Int := 0
deriving DecidableEq, Repr

/-- The kill-relevant state of one live task of a Job: whether the task
still exists, its kill time, the stage-1 annotation, the observed deletion
timestamp once a normal delete was issued, and `DeletedStatus.Reason`. -/
structure TaskKillState where
  alive : Bool := true
  killTime : Int := 0
  annotatedKillTime : Option Int := none
  deletionTimestamp : Option Int := none
  deletedReason : Option String := none
deriving DecidableEq, Repr

/-- The side effect the kill sequence issues in one reconcile step. -/
inductive KillAction where
  | softKill
  | normalDelete
  | forceDelete
  | requeue
  | idle
deriving DecidableEq, Repr

/-- Modelled from the spec: the kill sequence of the job lifecycle
reconciler is not under `src/` (only its test fixtures are, at
`controller.go:315`). Per spec section 4.5: stage 1 annotates the task
with the kill timestamp (soft kill); stage 2 issues a normal deletion once
`deleteKillingTasksTimeoutSeconds` have passed since the kill time,
writing `DeletedStatus.Reason = "Deleted"`; stage 3 issues a force
deletion once `forceDeleteKillingTasksTimeoutSeconds` have passed since
the observed deletion timestamp, writing `Reason = "ForceDeleted"` —
unless the Job sets `ForbidForceDeletion`, in which case the reconciler
stays in stage 2 and re-enqueues. A `forceDeleteKillingTasksTimeoutSeconds`
of `0` disables force deletion. `forbid` is the Job spec's
`ForbidForceDeletion`. -/
def killStep (cfg : KillConfig) (forbid : Bool) (now : Int)
    (s : TaskKillState) : KillAction × TaskKillState :=
  if s.alive = false then (.idle, s)
  else
    match s.annotatedKillTime with
    | none => (.softKill, { s with annotatedKillTime := some s.killTime })
    | some _ =>
      match s.deletionTimestamp with
      | none =>
        if cfg.deleteTimeout ≤ now - s.killTime then
          (.normalDelete,
           { s with deletionTimestamp := some now, deletedReason := some "Deleted" })
        else (.requeue, s)
      | some dt =>
        if cfg.forceDeleteTimeout ≠ 0 ∧ cfg.forceDeleteTimeout ≤ now - dt then
          if forbid then (.requeue, s)
          else
            (.forceDelete,
             { s with alive := false, deletedReason := some "ForceDeleted" })
        else (.requeue, s)

/-- States reachable from `s` by any interleaving of reconcile steps (at
arbitrary clock readings) and the environment observing the task's actual
disappearance from the store. -/
inductive KillReachable (cfg : KillConfig) (forbid : Bool) :
    TaskKillState → TaskKillState → Prop
  | refl (s : TaskKillState) : KillReachable cfg forbid s s
  | step (s t : TaskKillState) (now : Int) (h : KillReachable cfg forbid s t) :
      KillReachable cfg forbid s (killStep cfg forbid now t).2
  | vanish (s t : TaskKillState) (h : KillReachable cfg forbid s t) :
      KillReachable cfg forbid s { t with alive := false }

/-! ## Supporting lemmas -/

theorem getAnn_setAnn (anns : List (String × String)) (k v : String) :
    getAnn (setAnn anns k v) k = some v := by
  induction anns with
  | nil => simp [getAnn, setAnn, List.find?]
  | cons a rest ih =>
    by_cases h : a.1 = k
    · simp [getAnn, setAnn, h]
    · simp [getAnn, setAnn, List.find?, h]

theorem findSome?_append {α β : Type} (f : α → Option β) (l₁ l₂ : List α) :
    (l₁ ++ l₂).findSome? f =
      match l₁.findSome? f with
      | some b => some b
      | none => l₂.findSome? f := by
  induction l₁ with
  | nil => simp [List.findSome?]
  | cons a rest ih =>
    cases h : f a with
    | some b => simp [List.findSome?, h]
    | none => simpa [List.findSome?, h] using ih

theorem configManagerLoad_foldl {payload : Type}
    (loaders : List (ConfigLoader payload)) (name : ConfigName)
    (acc : Option payload) :
    loaders.foldl
        (fun acc l =>
          match l name with
          | some p => some p
          | none => acc)
        acc =
      match loaders.reverse.findSome? (fun l => l name) with
      | some p => some p
      | none => acc := by
  induction loaders generalizing acc with
  | nil => simp [List.findSome?]
  | cons l rest ih =>
    simp only [List.foldl_cons, List.reverse_cons]
    rw [ih, findSome?_append]
    cases h1 : rest.reverse.findSome? (fun l => l name) with
    | some p => rfl
    | none =>
      cases h2 : l name with
      | some p => simp [List.findSome?, h2]
      | none => simp [List.findSome?, h2]

/-- With `ForbidForceDeletion` set, a reconcile step of the kill sequence
never emits a force deletion, and the only `DeletedStatus.Reason` it can
install is `"Deleted"`. -/
theorem killStep_forbid (cfg : KillConfig) (now : Int) (s : TaskKillState) :
    (killStep cfg true now s).1 ≠ KillAction.forceDelete ∧
    ((killStep cfg true now s).2.deletedReason = s.deletedReason ∨
     (killStep cfg true now s).2.deletedReason = some "Deleted") := by
  unfold killStep
  split
  · exact ⟨nofun, Or.inl rfl⟩
  · split
    · exact ⟨nofun, Or.inl rfl⟩
    · split
      · split
        · exact ⟨nofun, Or.inr rfl⟩
        · exact ⟨nofun, Or.inl rfl⟩
      · split
        · split
          · exact ⟨nofun, Or.inl rfl⟩
          · rename_i hcontra
            exact absurd rfl hcontra
        · exact ⟨nofun, Or.inl rfl⟩

/-! ## Claims -/

/-- Claim C2 (confirmed): for every live task entering the kill sequence
with kill time `ts`, the soft-kill stage (`killPod`,
src/pkg/execution/controllers/croncontroller/controller.go:458) annotates
the task with the kill timestamp and sets `ActiveDeadlineSeconds` to
`ts - startTime` in whole seconds. -/
theorem claim_C2 (pod : PodModel) (ts st : Int)
    (h : pod.status.startTime = some st) :
    ∃ p, killPod pod ts = some p ∧
      getAnn p.anns LabelKeyTaskKillTimestamp = some (toString ts) ∧
      p.spec.activeDeadlineSeconds = some (ts - st) := by
  unfold killPod
  rw [h]
  exact ⟨_, rfl, getAnn_setAnn pod.anns _ _, rfl⟩

/-- Fixture mirroring `fakePodPending` (controller.go:384): a pending pod
whose `Status.StartTime` is set. Times are Unix seconds. -/
def fixturePodPending : PodModel := { status := { startTime := some 10 } }

theorem claim_C2_witness :
    ∃ p, killPod fixturePodPending 25 = some p ∧
      getAnn p.anns LabelKeyTaskKillTimestamp = some (toString (25 : Int)) ∧
      p.spec.activeDeadlineSeconds = some (25 - 10 : Int) :=
  claim_C2 fixturePodPending 25 10 rfl

/-- Fixture mirroring `jobWithStartAfter` of the job-queue reconciler test:
no `StartTime`, `StartPolicy.StartAfter` at Unix second 100. -/
def fixtureJobWithStartAfter : QueueJob :=
  { startTime := none, startAfter := some 100 }

/-- Claim C1 counterexample: reconciling the job at `now = 101`, one second
past `StartAfter = 100`, issues a status update that sets
`StartTime = 101 = now`, not `StartTime = StartAfter` as the claim states
for every `now ≥ StartAfter`. -/
theorem claim_C1_counterexample :
    reconcileIndependentJob 101 fixtureJobWithStartAfter =
      [QueueAction.updateStatus 101] ∧ (101 : Int) ≠ 100 :=
  ⟨rfl, by decide⟩

/-- Claim C1 (corrected): for a Job with no `StartTime` and
`StartAfter = t`, reconciling at `now < t` issues no status update and
only re-enqueues the key with delay `t - now`; reconciling at `now ≥ t`
issues exactly one status update that sets `StartTime = now` (which equals
`StartAfter` when the reconcile happens exactly at `StartAfter`, as in the
test "start job with past startAfter"). -/
theorem claim_C1 (t now : Int) (job : QueueJob)
    (h1 : job.startTime = none) (h2 : job.startAfter = some t) :
    (now < t →
      reconcileIndependentJob now job = [QueueAction.requeueAfter (t - now)]) ∧
    (t ≤ now →
      reconcileIndependentJob now job = [QueueAction.updateStatus now]) := by
  obtain ⟨st, sa⟩ := job
  dsimp only at h1 h2
  subst h1
  subst h2
  constructor
  · intro h
    simp [reconcileIndependentJob, h]
  · intro h
    simp [reconcileIndependentJob, not_lt.mpr h]

theorem claim_C1_witness :
    reconcileIndependentJob 40 fixtureJobWithStartAfter =
      [QueueAction.requeueAfter 60] ∧
    reconcileIndependentJob 100 fixtureJobWithStartAfter =
      [QueueAction.updateStatus 100] :=
  ⟨(claim_C1 100 40 fixtureJobWithStartAfter rfl rfl).1 (by decide),
   (claim_C1 100 100 fixtureJobWithStartAfter rfl rfl).2 (by decide)⟩

/-- Claim C8 (confirmed): for every config name, `Load` returns the payload
published by the latest loader in registration order whose payload for that
name is non-empty; the overriding payload replaces the whole named config,
so fields absent from it are not merged in from earlier loaders. -/
theorem claim_C8 {payload : Type} (loaders : List (ConfigLoader payload))
    (name : ConfigName) :
    (configManagerLoad loaders name =
      loaders.reverse.findSome? (fun l => l name)) ∧
    (∀ (l : ConfigLoader payload) (p : payload), l name = some p →
      configManagerLoad (loaders ++ [l]) name = some p) := by
  constructor
  · unfold configManagerLoad
    rw [configManagerLoad_foldl]
    cases h : loaders.reverse.findSome? (fun l => l name) <;> rfl
  · intro l p hp
    unfold configManagerLoad
    rw [configManagerLoad_foldl]
    rw [List.reverse_append]
    simp [List.findSome?, hp]

/-- Fixture: a bottom loader publishing a full `CronExecutionConfig`
payload. -/
def fixtureDefaultCronLoader : ConfigLoader CronExecutionConfigPayload :=
  fun n =>
    if n = "CronExecutionConfig" then
      some { maxMissedSchedules := some 55, maxDowntimeThresholdSeconds := some 300 }
    else none

/-- Fixture mirroring the mock loader of `TestDefaultsLoader_LoaderOverride`
(src/unnamed/part_003:76): it publishes only `maxMissedSchedules = 100` for
`CronExecutionConfig`. -/
def fixtureMockCronLoader : ConfigLoader CronExecutionConfigPayload :=
  fun n =>
    if n = "CronExecutionConfig" then some { maxMissedSchedules := some 100 }
    else none

/-- Witness for C8: the later loader's payload replaces the whole named
config; `maxDowntimeThresholdSeconds` from the earlier loader is not
merged in. -/
theorem claim_C8_witness :
    configManagerLoad [fixtureDefaultCronLoader, fixtureMockCronLoader]
        "CronExecutionConfig" =
      some { maxMissedSchedules := some 100, maxDowntimeThresholdSeconds := none } :=
  (claim_C8 [fixtureDefaultCronLoader] "CronExecutionConfig").2
    fixtureMockCronLoader _ rfl

/-- Claim C3 (confirmed): with `ForbidForceDeletion` set, every task state
reachable under the kill sequence still has
`DeletedStatus.Reason ≠ "ForceDeleted"`, and no reachable reconcile step
ever issues a force deletion (the kill sequence stays in the
normal-deletion stage and re-enqueues instead). -/
theorem claim_C3 (cfg : KillConfig) (s0 t : TaskKillState)
    (h0 : s0.deletedReason ≠ some "ForceDeleted")
    (hr : KillReachable cfg true s0 t) :
    t.deletedReason ≠ some "ForceDeleted" ∧
    ∀ now, (killStep cfg true now t).1 ≠ KillAction.forceDelete := by
  induction hr with
  | refl => exact ⟨h0, fun now => (killStep_forbid cfg now s0).1⟩
  | step t now h ih =>
    refine ⟨?_, fun n => (killStep_forbid cfg n _).1⟩
    rcases (killStep_forbid cfg now t).2 with h1 | h1
    · rw [h1]; exact ih.1
    · rw [h1]
      intro hc
      exact (by decide : ("Deleted" : String) ≠ "ForceDeleted") (Option.some.inj hc)
  | vanish t h ih =>
    exact ⟨ih.1, fun n => (killStep_forbid cfg n _).1⟩

/-- Fixture mirroring `fakeJobPodDeletingForbidForceDeletion`
(controller.go:327): the task was soft-killed at Unix second 10 and a
normal deletion was issued at second 190. -/
def fixtureKillConfig : KillConfig :=
  { deleteTimeout := 180, forceDeleteTimeout := 120 }

def fixtureKillState : TaskKillState := { killTime := 10 }

theorem claim_C3_witness :
    fixtureKillState.deletedReason ≠ some "ForceDeleted" ∧
    (killStep fixtureKillConfig true 400 fixtureKillState).1 ≠
      KillAction.forceDelete :=
  ⟨(claim_C3 fixtureKillConfig fixtureKillState fixtureKillState (by decide)
      (KillReachable.refl fixtureKillState)).1,
   (claim_C3 fixtureKillConfig fixtureKillState fixtureKillState (by decide)
      (KillReachable.refl fixtureKillState)).2 400⟩

/-! ## Option evaluator lemmas -/

theorem trimIf_empty (b : Bool) : trimIf b "" = "" := by
  cases b <;> rfl

theorem coerceElems_map_str (xs : List String) :
    coerceElems (xs.map GoElem.str) = .ok xs := by
  induction xs with
  | nil => rfl
  | cons x rest ih => simp [coerceElems, ih, Except.map]

theorem coerceElems_nonStr {es : List GoElem} (h : GoElem.nonStr ∈ es) :
    ∃ e, coerceElems es = .error e := by
  induction es with
  | nil => cases h
  | cons a rest ih =>
    cases a with
    | nonStr => exact ⟨"element is not a string", rfl⟩
    | str s =>
      have h' : GoElem.nonStr ∈ rest := by
        rcases List.mem_cons.mp h with h1 | h1
        · cases h1
        · exact h1
      obtain ⟨e, he⟩ := ih h'
      exact ⟨e, by simp [coerceElems, he, Except.map]⟩

theorem coerceElems_empty_str {es : List GoElem} (h : GoElem.str "" ∈ es) :
    (∃ e, coerceElems es = .error e) ∨
    (∃ ys, coerceElems es = .ok ys ∧ "" ∈ ys) := by
  induction es with
  | nil => cases h
  | cons a rest ih =>
    cases a with
    | nonStr => exact Or.inl ⟨"element is not a string", rfl⟩
    | str s =>
      rcases List.mem_cons.mp h with h1 | h1
      · injection h1 with h2
        subst h2
        cases hres : coerceElems rest with
        | error e => exact Or.inl ⟨e, by simp [coerceElems, hres, Except.map]⟩
        | ok ys =>
          exact Or.inr ⟨"" :: ys, by simp [coerceElems, hres, Except.map],
            List.mem_cons_self _ _⟩
      · rcases ih h1 with ⟨e, he⟩ | ⟨ys, hys, hmem⟩
        · exact Or.inl ⟨e, by simp [coerceElems, he, Except.map]⟩
        · exact Or.inr ⟨s :: ys, by simp [coerceElems, hys, Except.map],
            List.mem_cons_of_mem _ hmem⟩

/-- For a Multi-typed option, `EvaluateOption` is exactly Multi evaluation
over the option's config. -/
theorem evaluateOption_multi (opt : JobOption) (cfg : MultiOptionConfig)
    (ht : opt.optType = OptionType.multi) (hc : opt.multi = some cfg)
    (v : GoValue) :
    evaluateOption v opt = evaluateMulti opt.required cfg v := by
  obtain ⟨ty, nm, req, b, st, sel, mu, da⟩ := opt
  dsimp only at ht hc
  subst ht
  subst hc
  rfl

theorem evaluateMulti_ok_list (req : Bool) (cfg : MultiOptionConfig)
    (xs : List String) (hne : xs ≠ [])
    (hv : ∀ x ∈ xs, elemValid cfg.values cfg.allowCustom x = true) :
    evaluateMulti req cfg (.strList xs) =
      .ok (String.intercalate cfg.delimiter xs) := by
  unfold evaluateMulti coerceMultiValue
  dsimp only
  rw [if_neg hne, if_pos (List.all_eq_true.mpr hv)]

theorem evaluateMulti_ok_anyList (req : Bool) (cfg : MultiOptionConfig)
    (xs : List String) (hne : xs ≠ [])
    (hv : ∀ x ∈ xs, elemValid cfg.values cfg.allowCustom x = true) :
    evaluateMulti req cfg (.anyList (some (xs.map GoElem.str))) =
      .ok (String.intercalate cfg.delimiter xs) := by
  unfold evaluateMulti coerceMultiValue
  dsimp only
  rw [coerceElems_map_str]
  dsimp only
  rw [if_neg hne, if_pos (List.all_eq_true.mpr hv)]

theorem evaluateMulti_error_nonStr (req : Bool) (cfg : MultiOptionConfig)
    {es : List GoElem} (h : GoElem.nonStr ∈ es) :
    ∃ e, evaluateMulti req cfg (.anyList (some es)) = .error e := by
  obtain ⟨e, he⟩ := coerceElems_nonStr h
  refine ⟨e, ?_⟩
  unfold evaluateMulti coerceMultiValue
  dsimp only
  rw [he]

theorem evaluateMulti_error_empty_str (req : Bool) (cfg : MultiOptionConfig)
    {es : List GoElem} (h : GoElem.str "" ∈ es) :
    ∃ e, evaluateMulti req cfg (.anyList (some es)) = .error e := by
  rcases coerceElems_empty_str h with ⟨e, he⟩ | ⟨ys, hys, hmem⟩
  · refine ⟨e, ?_⟩
    unfold evaluateMulti coerceMultiValue
    dsimp only
    rw [he]
  · have hne : ys ≠ [] := by
      intro hnil
      rw [hnil] at hmem
      cases hmem
    have hall : ¬ (ys.all (elemValid cfg.values cfg.allowCustom) = true) := by
      rw [List.all_eq_true]
      intro hforall
      have hbad := hforall _ hmem
      simp [elemValid] at hbad
    refine ⟨"value is not an allowed value", ?_⟩
    unfold evaluateMulti coerceMultiValue
    dsimp only
    rw [hys]
    dsimp only
    rw [if_neg hne, if_neg hall]

theorem validateOptionsList_ne_nil (seen : List String) (opts : List JobOption)
    (h : (∃ o ∈ opts, o.name ∈ seen) ∨ ¬ (opts.map JobOption.name).Nodup) :
    validateOptionsList seen opts ≠ [] := by
  induction opts generalizing seen with
  | nil =>
    rcases h with ⟨o, ho, _⟩ | hnd
    · cases ho
    · exact absurd List.nodup_nil hnd
  | cons o rest ih =>
    by_cases hs : o.name ∈ seen
    · intro hcontra
      simp only [validateOptionsList] at hcontra
      rcases List.append_eq_nil.mp hcontra with ⟨hAB, hC⟩
      rcases List.append_eq_nil.mp hAB with ⟨hA, hB⟩
      rw [if_pos hs] at hB
      cases hB
    · have h' : (∃ x ∈ rest, x.name ∈ o.name :: seen) ∨
          ¬ (rest.map JobOption.name).Nodup := by
        rcases h with ⟨x, hx, hxs⟩ | hnd
        · rcases List.mem_cons.mp hx with rfl | hx'
          · exact absurd hxs hs
          · exact Or.inl ⟨x, hx', List.mem_cons_of_mem _ hxs⟩
        · rw [List.map_cons, List.nodup_cons] at hnd
          by_cases hmem : o.name ∈ rest.map JobOption.name
          · obtain ⟨x, hx, hxname⟩ := List.mem_map.mp hmem
            refine Or.inl ⟨x, hx, ?_⟩
            rw [hxname]
            exact List.mem_cons_self _ _
          · exact Or.inr fun hnodup => hnd ⟨hmem, hnodup⟩
      have htail := ih (o.name :: seen) h'
      intro hcontra
      simp only [validateOptionsList] at hcontra
      rcases List.append_eq_nil.mp hcontra with ⟨hAB, hC⟩
      exact htail hC

/-! ## Option evaluator claims -/

/-- Claim C4 (confirmed): for every String option marked Required, an
explicitly provided empty string is an error regardless of any Default,
while a nil value with a non-empty (effective) Default succeeds and returns
that Default (trimmed when `TrimSpaces` is set, per the spec). -/
theorem claim_C4 (opt : JobOption) (ht : opt.optType = OptionType.string)
    (hr : opt.required = true) :
    (∃ e, evaluateOption (.str "") opt = .error e) ∧
    (stringEffectiveDefault opt ≠ "" →
      evaluateOption .null opt = .ok (stringEffectiveDefault opt)) := by
  obtain ⟨ty, nm, req, b, st, sel, mu, da⟩ := opt
  dsimp only at ht hr
  subst ht
  subst hr
  constructor
  · refine ⟨"option is required", ?_⟩
    unfold evaluateOption
    dsimp only
    rw [if_pos ⟨trimIf_empty _, rfl⟩]
  · intro hd
    unfold evaluateOption
    dsimp only
    rw [if_neg]
    · rfl
    · rintro ⟨h1, -⟩
      exact hd h1

/-- Fixture mirroring the test "string option, nil value, required, with
default" (src/unnamed/part_002:676). -/
def fixtureRequiredStringOpt : JobOption :=
  { optType := .string, name := "opt", required := true,
    string := some { default := "hello" } }

theorem claim_C4_witness :
    (∃ e, evaluateOption (.str "") fixtureRequiredStringOpt = .error e) ∧
    evaluateOption GoValue.null fixtureRequiredStringOpt = .ok "hello" := by
  have h := claim_C4 fixtureRequiredStringOpt rfl rfl
  exact ⟨h.1, h.2 (by decide)⟩

/-- Fixture mirroring the test "date option, required"
(src/unnamed/part_002:1182): a valid Date option marked Required. -/
def fixtureRequiredDateOpt : JobOption :=
  { optType := .date, name := "opt", required := true }

/-- Claim C5 counterexample: the valid Required Date option of the test
"date option, required" evaluates a nil value to an error, refuting the
claim that a nil value always succeeds for Date options including when
Required. -/
theorem claim_C5_counterexample :
    validateJobOption fixtureRequiredDateOpt = [] ∧
    evaluateOption GoValue.null fixtureRequiredDateOpt =
      .error "option is required" :=
  ⟨rfl, rfl⟩

/-- Claim C5 (corrected): for every Date option, a nil value succeeds with
the empty string only when the option is not Required (a Date option has no
default); when the option is Required, a nil value is an error. -/
theorem claim_C5 (opt : JobOption) (ht : opt.optType = OptionType.date) :
    (opt.required = false → evaluateOption .null opt = .ok "") ∧
    (opt.required = true →
      evaluateOption .null opt = .error "option is required") := by
  obtain ⟨ty, nm, req, b, st, sel, mu, da⟩ := opt
  dsimp only at ht
  subst ht
  constructor
  · intro h
    dsimp only at h
    subst h
    rfl
  · intro h
    dsimp only at h
    subst h
    rfl

def fixtureDateOpt : JobOption := { optType := .date, name := "opt" }

theorem claim_C5_witness :
    evaluateOption GoValue.null fixtureDateOpt = .ok "" ∧
    evaluateOption GoValue.null fixtureRequiredDateOpt =
      .error "option is required" :=
  ⟨(claim_C5 fixtureDateOpt rfl).1 rfl,
   (claim_C5 fixtureRequiredDateOpt rfl).2 rfl⟩

/-- Claim C6 (confirmed): for every Select option, an explicitly provided
empty string yields the empty string when the option is not Required
(overriding any configured Default), and an error when it is Required (even
when a Default exists — the Default is quantified inside `opt`). -/
theorem claim_C6 (opt : JobOption) (ht : opt.optType = OptionType.select) :
    (opt.required = false → evaluateOption (.str "") opt = .ok "") ∧
    (opt.required = true →
      evaluateOption (.str "") opt = .error "option is required") := by
  obtain ⟨ty, nm, req, b, st, sel, mu, da⟩ := opt
  dsimp only at ht
  subst ht
  constructor
  · intro h
    dsimp only at h
    subst h
    rfl
  · intro h
    dsimp only at h
    subst h
    rfl

/-- Fixture mirroring the test "select option, allow empty string when not
required" (src/unnamed/part_002:811). -/
def fixtureSelectOpt : JobOption :=
  { optType := .select, name := "opt",
    select := some { default := "a", values := ["a", "b"] } }

/-- Fixture mirroring the test "select option, empty string cannot be used
when required" (src/unnamed/part_002:891). -/
def fixtureRequiredSelectOpt : JobOption :=
  { optType := .select, name := "opt", required := true,
    select := some { default := "b", values := ["a", "b"], allowCustom := true } }

theorem claim_C6_witness :
    evaluateOption (.str "") fixtureSelectOpt = .ok "" ∧
    evaluateOption (.str "") fixtureRequiredSelectOpt =
      .error "option is required" :=
  ⟨(claim_C6 fixtureSelectOpt rfl).1 rfl,
   (claim_C6 fixtureRequiredSelectOpt rfl).2 rfl⟩

/-- Fixture mirroring the test "multi option, empty []interface{} value
with a default" (src/unnamed/part_002:1057). -/
def fixtureMultiEmptyListOpt : JobOption :=
  { optType := .multi, name := "opt", required := true,
    multi := some { default := ["a"], values := ["a", "b"],
                    allowCustom := true, delimiter := "," } }

/-- Claim C7 counterexample: the empty list is an input list all of whose
elements are (vacuously) valid per Select semantics, yet `EvaluateOption`
returns the joined Default `"a"` rather than the join of the input, which
would be `""`. -/
theorem claim_C7_counterexample :
    evaluateOption (.anyList (some [])) fixtureMultiEmptyListOpt = .ok "a" ∧
    String.intercalate "," ([] : List String) = "" ∧ ("a" : String) ≠ "" :=
  ⟨rfl, rfl, by decide⟩

/-- Claim C7 (corrected): for every Multi option and every non-empty input
list whose elements are all valid per Select semantics, `EvaluateOption`
returns the elements joined by the configured Delimiter in input order
(the Go zero value makes the delimiter default to the empty string); an
empty input list instead falls back to the configured Default. A value that
is not a list of strings is an error, as is a heterogeneous list containing
a non-string or an empty-string element. -/
theorem claim_C7 (opt : JobOption) (cfg : MultiOptionConfig)
    (ht : opt.optType = OptionType.multi) (hc : opt.multi = some cfg) :
    (∀ xs : List String, xs ≠ [] →
      (∀ x ∈ xs, elemValid cfg.values cfg.allowCustom x = true) →
      evaluateOption (.strList xs) opt =
        .ok (String.intercalate cfg.delimiter xs)) ∧
    (∀ xs : List String, xs ≠ [] →
      (∀ x ∈ xs, elemValid cfg.values cfg.allowCustom x = true) →
      evaluateOption (.anyList (some (xs.map GoElem.str))) opt =
        .ok (String.intercalate cfg.delimiter xs)) ∧
    (∀ s, ∃ e, evaluateOption (.str s) opt = .error e) ∧
    (∀ b, ∃ e, evaluateOption (.bool b) opt = .error e) ∧
    (∀ n, ∃ e, evaluateOption (.int n) opt = .error e) ∧
    (∀ es, GoElem.nonStr ∈ es →
      ∃ e, evaluateOption (.anyList (some es)) opt = .error e) ∧
    (∀ es, GoElem.str "" ∈ es →
      ∃ e, evaluateOption (.anyList (some es)) opt = .error e) := by
  refine ⟨?_, ?_, ?_, ?_, ?_, ?_, ?_⟩
  · intro xs hne hv
    rw [evaluateOption_multi opt cfg ht hc]
    exact evaluateMulti_ok_list _ cfg xs hne hv
  · intro xs hne hv
    rw [evaluateOption_multi opt cfg ht hc]
    exact evaluateMulti_ok_anyList _ cfg xs hne hv
  · intro s
    rw [evaluateOption_multi opt cfg ht hc]
    exact ⟨"value is not a list of strings", rfl⟩
  · intro b
    rw [evaluateOption_multi opt cfg ht hc]
    exact ⟨"value is not a list of strings", rfl⟩
  · intro n
    rw [evaluateOption_multi opt cfg ht hc]
    exact ⟨"value is not a list of strings", rfl⟩
  · intro es h
    rw [evaluateOption_multi opt cfg ht hc]
    exact evaluateMulti_error_nonStr _ cfg h
  · intro es h
    rw [evaluateOption_multi opt cfg ht hc]
    exact evaluateMulti_error_empty_str _ cfg h

theorem claim_C7_witness :
    evaluateOption (.strList ["a", "b"]) fixtureMultiOpt = .ok "a,b" ∧
    (∃ e, evaluateOption (.str "") fixtureMultiOpt = .error e) ∧
    (∃ e, evaluateOption (.anyList (some [GoElem.str "a", GoElem.nonStr]))
        fixtureMultiOpt = .error e) ∧
    (∃ e, evaluateOption (.anyList (some [GoElem.str "a", GoElem.str ""]))
        fixtureMultiOpt = .error e) := by
  have h := claim_C7 fixtureMultiOpt { values := ["a", "b"], delimiter := "," }
    rfl rfl
  exact ⟨h.1 ["a", "b"] (by decide) (by decide), h.2.2.1 "",
    h.2.2.2.2.2.1 _ (by decide), h.2.2.2.2.2.2 _ (by decide)⟩

/-- Claim C9 (confirmed): `ValidateOptionSpec` accepts a nil OptionSpec and
an OptionSpec with a nil Options list, and returns a non-empty error list
whenever two Options share the same name. -/
theorem claim_C9 :
    validateOptionSpec none = [] ∧
    validateOptionSpec (some { options := [] }) = [] ∧
    ∀ (s : OptionSpec), ¬ (s.options.map JobOption.name).Nodup →
      validateOptionSpec (some s) ≠ [] :=
  ⟨rfl, rfl, fun s h => validateOptionsList_ne_nil [] s.options (Or.inr h)⟩

/-- Fixture mirroring the "duplicate option names" case of
`TestValidateOptionSpec` (src/unnamed/part_002:56). -/
def fixtureDupSpec : OptionSpec :=
  { options :=
      [{ optType := .string, name := "option", string := some {} },
       { optType := .select, name := "option",
         select := some { values := ["a", "b"] } }] }

theorem claim_C9_witness :
    validateOptionSpec (some fixtureDupSpec) ≠ [] :=
  claim_C9.2.2 fixtureDupSpec (by decide)

/-- Claim C10 (confirmed): for every Select or Multi option marked Required
with no Default, `EvaluateOptionDefault` succeeds with the empty string,
while `EvaluateOption` with a nil value fails for the same option. -/
theorem claim_C10 (opt : JobOption) (hr : opt.required = true) :
    (opt.optType = OptionType.select → (opt.select.getD {}).default = "" →
      evaluateOptionDefault opt = .ok "" ∧
      evaluateOption .null opt = .error "option is required") ∧
    (opt.optType = OptionType.multi → (opt.multi.getD {}).default = [] →
      evaluateOptionDefault opt = .ok "" ∧
      evaluateOption .null opt = .error "option is required") := by
  obtain ⟨ty, nm, req, b, st, sel, mu, da⟩ := opt
  dsimp only at hr
  subst hr
  constructor
  · intro ht hd
    dsimp only at ht hd
    subst ht
    constructor
    · unfold evaluateOptionDefault
      dsimp only
      rw [hd]
    · unfold evaluateOption
      dsimp only
      rw [if_pos hd]
      rfl
  · intro ht hd
    dsimp only at ht hd
    subst ht
    constructor
    · unfold evaluateOptionDefault
      dsimp only
      rw [hd]
      rfl
    · unfold evaluateOption evaluateMulti coerceMultiValue
      dsimp only
      simp [hd]

/-- Fixture mirroring the test "select option, required, no default"
(src/unnamed/part_002:1411). -/
def fixtureRequiredSelectNoDefault : JobOption :=
  { optType := .select, name := "opt", required := true,
    select := some { values := ["a", "b"] } }

/-- Fixture mirroring the test "multi option, required, no default"
(src/unnamed/part_002:1469). -/
def fixtureRequiredMultiNoDefault : JobOption :=
  { optType := .multi, name := "opt", required := true,
    multi := some { values := ["a", "b", "c"], delimiter := "," } }

theorem claim_C10_witness :
    (evaluateOptionDefault fixtureRequiredSelectNoDefault = .ok "" ∧
     evaluateOption GoValue.null fixtureRequiredSelectNoDefault =
       .error "option is required") ∧
    (evaluateOptionDefault fixtureRequiredMultiNoDefault = .ok "" ∧
     evaluateOption GoValue.null fixtureRequiredMultiNoDefault =
       .error "option is required") :=
  ⟨(claim_C10 fixtureRequiredSelectNoDefault rfl).1 rfl rfl,
   (claim_C10 fixtureRequiredMultiNoDefault rfl).2 rfl rfl⟩

end Furiko
